import Mathlib

/-!
Spout receiver example: `ofApp.cpp`.

A shallow embedding of the callbacks of
`SPOUTSDK/SpoutLibrary/SpoutLibraryExample/src/ofApp.cpp`
(`setup`, `update`, `draw`, `showInfo`, `exit`, `mousePressed`).

The application is glue around two absent parties: the SpoutLibrary object
behind the `receiver` pointer and the openFrameworks buffers `ofTexture` /
`ofImage`.  The library is a parameter of every definition (`SPOUTLIBRARY σ`,
a deterministic machine over an arbitrary state type `σ`); the buffers are
records of their dimensions.  Every externally visible action is appended to a
trace, so that "is called", "is drawn" and "exactly once" are statements about
lists.

Conventions.
* A call through a null `receiver` is undefined behaviour in C++; it is
  recorded as `Event.nullCall` and the run stops there (`Stop.nullHandle`).
* A call `sprintf_s(str, 256, ...)` whose output does not fit (text plus
  terminator) invokes the invalid parameter handler; the program installs
  none, so the run stops there (`Stop.invalidParameter`).
* C++ leaves the evaluation order of function arguments unspecified; the trace
  lists the accessor calls of one argument list in source order.  This is a
  convention of the model: no claim proved below speaks about that order.
* Widths, heights and the frame count are the C integers the program passes to
  `allocate(int, int, int)` and to `%d`; they are integers here, and the
  32-bit range is a hypothesis where it matters.
-/

namespace SpoutReceiver

/-! ## Data model -/

/-- Entry points of the SpoutLibrary interface that `ofApp.cpp` calls through `receiver`. -/
inductive LibOp
  | EnableSpoutLog
  | IsUpdated
  | GetSenderWidth
  | GetSenderHeight
  | ReceiveTexture
  | IsConnected
  | GetSenderFrame
  | GetSenderName
  | GetSenderFps
  | SelectSender
  | ReleaseReceiver
  | Release
  deriving DecidableEq

/-- Externally visible actions of the application, in the order they happen. -/
inductive Event
  | ofBackground (r g b : Int)
  | GetSpout
  | MessageBoxA (text caption : String)
  | call (op : LibOp)
  | nullCall (op : LibOp)
  | textureDraw (x y w h : Int)
  | ofSetColor (gray : Int)
  | ofDrawBitmapString (text : String) (x y : Int)
  deriving DecidableEq

/-- Pixel formats named in `setup` (`GL_RGBA` for the texture, `OF_IMAGE_COLOR` for the image). -/
inductive PixelFormat
  | GL_RGBA
  | OF_IMAGE_COLOR
  deriving DecidableEq

/-- Modelled from the spec: the framework buffers `ofTexture` and `ofImage` (openFrameworks,
not part of the sources).  The spec speaks of "a GPU-backed display buffer sized to match the
external producer's current frame dimensions" that is "reallocated" / "resized"; a buffer is
therefore its allocation flag, its dimensions and its pixel format. -/
structure Buffer where
  allocated : Bool
  width : Int
  height : Int
  format : Option PixelFormat
  deriving DecidableEq

/-- Modelled from the spec: a default-constructed, not yet allocated buffer. -/
def Buffer.empty : Buffer := ⟨false, 0, 0, none⟩

/-- Modelled from the spec: `allocate(w, h, format)` (re)allocates the buffer with the requested
dimensions and format. -/
def Buffer.allocate (w h : Int) (f : PixelFormat) (_b : Buffer) : Buffer :=
  ⟨true, w, h, some f⟩

/-- Modelled from the spec: `resize(w, h)` gives the buffer the requested dimensions and keeps
its allocation and format. -/
def Buffer.resize (w h : Int) (b : Buffer) : Buffer :=
  { b with width := w, height := h }

/-- The C `double` returned by `GetSenderFps()`.  The program uses it only as the argument of
the conversion `%2.0f`, so a value is represented by the text that conversion prints for it. -/
structure CDouble where
  fmt_2_0f : String
  deriving DecidableEq

/-- Modelled from the spec: the SpoutLibrary interface behind `receiver` (`SpoutLibrary.h` and
the library are not part of the sources).  `σ` is the library's internal state.  The spec lists
"accessors for current producer width, height, frame rate, frame counter, and a display name
string": these read the state.  Every other entry point may change it; those that return a
`bool` return it together with the new state. -/
structure SPOUTLIBRARY (σ : Type) where
  EnableSpoutLog : σ → σ
  IsUpdated : σ → Bool × σ
  ReceiveTexture : σ → Buffer → Bool × σ
  IsConnected : σ → Bool × σ
  SelectSender : σ → σ
  ReleaseReceiver : σ → σ
  Release : σ → σ
  GetSenderWidth : σ → Int
  GetSenderHeight : σ → Int
  GetSenderFrame : σ → Int
  GetSenderFps : σ → CDouble
  GetSenderName : σ → String

/-- What the surroundings answer: the result of the acquisition call `GetSpout()` (`none` is the
null pointer) and the window size returned by `ofGetWidth()` / `ofGetHeight()`. -/
structure Env (σ : Type) where
  GetSpout : Option σ
  ofGetWidth : Int
  ofGetHeight : Int

/-- The members of `ofApp` used by `ofApp.cpp`, and the trace of what the application did.
`receiver = none` is the null pointer; `some s` is a handle to a library in state `s`. -/
structure ofApp (σ : Type) where
  receiver : Option σ
  myTexture : Buffer
  myImage : Buffer
  trace : List Event

/-- Why a run stopped inside a callback. -/
inductive Stop
  | nullHandle
  | invalidParameter
  deriving DecidableEq

/-- Result of running a callback: it returned, or the run stopped inside it. -/
inductive Outcome (σ : Type)
  | returned (app : ofApp σ)
  | stopped (why : Stop) (app : ofApp σ)

/-- The application state an outcome ends in. -/
def Outcome.app {σ : Type} : Outcome σ → ofApp σ
  | .returned a => a
  | .stopped _ a => a

/-- Whether the callback returned. -/
def Outcome.isReturned {σ : Type} : Outcome σ → Bool
  | .returned _ => true
  | .stopped _ _ => false

/-- Sequencing: the next callback runs only if the previous one returned. -/
def Outcome.bind {σ : Type} (o : Outcome σ) (f : ofApp σ → Outcome σ) : Outcome σ :=
  match o with
  | .returned a => f a
  | .stopped w a => .stopped w a

/-- Append one event to the trace. -/
def emit {σ : Type} (e : Event) (app : ofApp σ) : ofApp σ :=
  { app with trace := app.trace ++ [e] }

/-- Append several events to the trace. -/
def emits {σ : Type} (es : List Event) (app : ofApp σ) : ofApp σ :=
  { app with trace := app.trace ++ es }

/-- The application object before `setup`: no handle, empty buffers, empty trace. -/
def ofApp.initial (σ : Type) : ofApp σ :=
  ⟨none, Buffer.empty, Buffer.empty, []⟩

/-! ## C runtime formatting -/

/-- The conversion `%d`: decimal digits, with a leading minus sign for a negative value. -/
def fmt_d : Int → String
  | Int.ofNat n => Nat.repr n
  | Int.negSucc n => "-" ++ Nat.repr (n + 1)

/-- The call `sprintf_s(str, sizeOfBuffer, ...)` given the text the format produces: the text is
stored when it fits together with its terminator; otherwise the invalid parameter handler is
invoked (`none`).  One C `char` is one character of the string. -/
def sprintf_s (sizeOfBuffer : Nat) (formatted : String) : Option String :=
  if formatted.length + 1 ≤ sizeOfBuffer then some formatted else none

/-- Text for the format `"Receiving : [%s] (%dx%d : fps %2.0f : frame %d)"`. -/
def fmtReceivingFrame (name : String) (w h : Int) (fps : CDouble) (frame : Int) : String :=
  "Receiving : [" ++ name ++ "] (" ++ fmt_d w ++ "x" ++ fmt_d h ++ " : fps " ++ fps.fmt_2_0f
    ++ " : frame " ++ fmt_d frame ++ ")"

/-- Text for the format `"Receiving : [%s] (%dx%d)"`. -/
def fmtReceiving (name : String) (w h : Int) : String :=
  "Receiving : [" ++ name ++ "] (" ++ fmt_d w ++ "x" ++ fmt_d h ++ ")"

/-! ## The callbacks of `ofApp.cpp` -/

namespace ofApp

variable {σ : Type}

/-- The callback `ofApp::exit()`: release the receiver, then release the library. -/
def exit (lib : SPOUTLIBRARY σ) (app : ofApp σ) : Outcome σ :=
  match app.receiver with
  | none => .stopped .nullHandle (emit (.nullCall .ReleaseReceiver) app)
  | some s =>
    let app := emit (.call .ReleaseReceiver) { app with receiver := some (lib.ReleaseReceiver s) }
    .returned (emit (.call .Release)
      { app with receiver := some (lib.Release (lib.ReleaseReceiver s)) })

/-- The callback `ofApp::setup()`.  The unqualified `exit()` inside a member function names the
member `ofApp::exit()`; `setup` continues after it if it returns. -/
def setup (lib : SPOUTLIBRARY σ) (env : Env σ) (app : ofApp σ) : Outcome σ :=
  let app := emit (.ofBackground 0 0 0) app
  let app := emit .GetSpout { app with receiver := env.GetSpout }
  let afterCheck : Outcome σ :=
    match app.receiver with
    | none => exit lib (emit (.MessageBoxA "Spout library load failed" "Spout Receiver") app)
    | some _ => .returned app
  afterCheck.bind fun app =>
    let app := { app with
      myTexture := app.myTexture.allocate env.ofGetWidth env.ofGetHeight .GL_RGBA }
    let app := { app with
      myImage := app.myImage.allocate env.ofGetWidth env.ofGetHeight .OF_IMAGE_COLOR }
    match app.receiver with
    | none => .stopped .nullHandle (emit (.nullCall .EnableSpoutLog) app)
    | some s => .returned (emit (.call .EnableSpoutLog)
        { app with receiver := some (lib.EnableSpoutLog s) })

/-- The callback `ofApp::update()`: when `IsUpdated()` answers true, reallocate the texture and
resize the image to the sender size. -/
def update (lib : SPOUTLIBRARY σ) (app : ofApp σ) : Outcome σ :=
  match app.receiver with
  | none => .stopped .nullHandle (emit (.nullCall .IsUpdated) app)
  | some s =>
    let r := lib.IsUpdated s
    let app := emit (.call .IsUpdated) { app with receiver := some r.2 }
    if r.1 then
      let app := emits [.call .GetSenderWidth, .call .GetSenderHeight] app
      let app := { app with
        myTexture :=
          app.myTexture.allocate (lib.GetSenderWidth r.2) (lib.GetSenderHeight r.2) .GL_RGBA }
      let app := emits [.call .GetSenderWidth, .call .GetSenderHeight] app
      .returned { app with
        myImage := app.myImage.resize (lib.GetSenderWidth r.2) (lib.GetSenderHeight r.2) }
    else
      .returned app

/-- The member function `ofApp::showInfo()`: the on-screen status text. -/
def showInfo (lib : SPOUTLIBRARY σ) (env : Env σ) (app : ofApp σ) : Outcome σ :=
  let app := emit (.ofSetColor 255) app
  match app.receiver with
  | none => .stopped .nullHandle (emit (.nullCall .IsConnected) app)
  | some s =>
    let c := lib.IsConnected s
    let app := emit (.call .IsConnected) { app with receiver := some c.2 }
    if c.1 then
      let app := emit (.call .GetSenderFrame) app
      let first : ofApp σ × Option String :=
        if lib.GetSenderFrame c.2 > 0 then
          (emits [.call .GetSenderName, .call .GetSenderWidth, .call .GetSenderHeight,
              .call .GetSenderFps, .call .GetSenderFrame] app,
            sprintf_s 256 (fmtReceivingFrame (lib.GetSenderName c.2) (lib.GetSenderWidth c.2)
              (lib.GetSenderHeight c.2) (lib.GetSenderFps c.2) (lib.GetSenderFrame c.2)))
        else
          (emits [.call .GetSenderName, .call .GetSenderWidth, .call .GetSenderHeight] app,
            sprintf_s 256 (fmtReceiving (lib.GetSenderName c.2) (lib.GetSenderWidth c.2)
              (lib.GetSenderHeight c.2)))
      match first.2 with
      | none => .stopped .invalidParameter first.1
      | some str =>
        let app := emit (.ofDrawBitmapString str 10 20) first.1
        match sprintf_s 256 "RH click select sender" with
        | none => .stopped .invalidParameter app
        | some str => .returned (emit (.ofDrawBitmapString str 10 (env.ofGetHeight - 20)) app)
    else
      match sprintf_s 256 "No sender detected" with
      | none => .stopped .invalidParameter app
      | some str => .returned (emit (.ofDrawBitmapString str 20 20) app)

/-- The callback `ofApp::draw()`: receive into the texture, draw it over the window, then the
status text. -/
def draw (lib : SPOUTLIBRARY σ) (env : Env σ) (app : ofApp σ) : Outcome σ :=
  match app.receiver with
  | none => .stopped .nullHandle (emit (.nullCall .ReceiveTexture) app)
  | some s =>
    let app := emit (.call .ReceiveTexture)
      { app with receiver := some (lib.ReceiveTexture s app.myTexture).2 }
    let app := emit (.textureDraw 0 0 env.ofGetWidth env.ofGetHeight) app
    showInfo lib env app

/-- The callback `ofApp::mousePressed(x, y, button)`: the right-hand button opens the sender
selection panel. -/
def mousePressed (lib : SPOUTLIBRARY σ) (_x _y button : Int) (app : ofApp σ) : Outcome σ :=
  if button = 2 then
    match app.receiver with
    | none => .stopped .nullHandle (emit (.nullCall .SelectSender) app)
    | some s => .returned (emit (.call .SelectSender)
        { app with receiver := some (lib.SelectSender s) })
  else
    .returned app

end ofApp

/-! ## Runs of the application -/

/-- The callbacks the framework delivers between `setup` and `exit`. -/
inductive Callback
  | update
  | draw
  | mousePressed (x y button : Int)
  deriving DecidableEq

/-- Deliver one callback. -/
def dispatch {σ : Type} (lib : SPOUTLIBRARY σ) (env : Env σ) (app : ofApp σ) :
    Callback → Outcome σ
  | .update => ofApp.update lib app
  | .draw => ofApp.draw lib env app
  | .mousePressed x y button => ofApp.mousePressed lib x y button app

/-- Deliver a finite sequence of callbacks, stopping at the first that does not return. -/
def runCallbacks {σ : Type} (lib : SPOUTLIBRARY σ) (env : Env σ) :
    List Callback → ofApp σ → Outcome σ
  | [], app => .returned app
  | cb :: cbs, app => (dispatch lib env app cb).bind (runCallbacks lib env cbs)

/-- The application lifecycle: `setup`, the delivered callbacks, then the framework's shutdown
call of `exit`. -/
def lifecycle {σ : Type} (lib : SPOUTLIBRARY σ) (env : Env σ) (cbs : List Callback) :
    Outcome σ :=
  ((ofApp.setup lib env (ofApp.initial σ)).bind (runCallbacks lib env cbs)).bind (ofApp.exit lib)

/-- One frame: `update()` followed by `draw()`. -/
def frame {σ : Type} (lib : SPOUTLIBRARY σ) (env : Env σ) (app : ofApp σ) : Outcome σ :=
  (ofApp.update lib app).bind (ofApp.draw lib env)

/-- The state on entry to frame `n` (counted from 0): `setup`, then `n` whole frames. -/
def atFrame {σ : Type} (lib : SPOUTLIBRARY σ) (env : Env σ) : Nat → Outcome σ
  | 0 => ofApp.setup lib env (ofApp.initial σ)
  | n + 1 => (atFrame lib env n).bind (frame lib env)

/-- The state at the moment `draw()` of frame `n` issues `ReceiveTexture`: the call is the first
statement of `draw`, so this is the state in which `update()` of that frame returned. -/
def atReceive {σ : Type} (lib : SPOUTLIBRARY σ) (env : Env σ) (n : Nat) : Outcome σ :=
  (atFrame lib env n).bind (ofApp.update lib)

/-! ## Reading a trace -/

/-- Number of times an entry point was invoked, through a valid or a null handle. -/
def invocations (op : LibOp) (t : List Event) : Nat :=
  t.count (.call op) + t.count (.nullCall op)

/-- The library calls made through a valid handle, in order. -/
def libCalls : List Event → List LibOp
  | [] => []
  | .call op :: t => op :: libCalls t
  | _ :: t => libCalls t

/-- The calls attempted through the null handle, in order. -/
def nullCalls : List Event → List LibOp
  | [] => []
  | .nullCall op :: t => op :: nullCalls t
  | _ :: t => nullCalls t

/-- The strings drawn with `ofDrawBitmapString`, with their positions, in order. -/
def drawn : List Event → List (String × Int × Int)
  | [] => []
  | .ofDrawBitmapString s x y :: t => (s, x, y) :: drawn t
  | _ :: t => drawn t

/-- The handle was released exactly once: one `ReleaseReceiver` and one `Release` through the
valid handle, and no call at all through a null handle. -/
def ReleasedExactlyOnce (t : List Event) : Prop :=
  t.count (.call .ReleaseReceiver) = 1 ∧ t.count (.call .Release) = 1 ∧ nullCalls t = []

instance (t : List Event) : Decidable (ReleasedExactlyOnce t) :=
  inferInstanceAs (Decidable (_ ∧ _ ∧ _))

/-- The first status line of the connected branch of `showInfo`, as the format produces it
before it is stored in `str`: with the fps and frame fields when the sender reports a frame
count, without them otherwise. -/
def statusLine {σ : Type} (lib : SPOUTLIBRARY σ) (s : σ) : String :=
  if lib.GetSenderFrame s > 0 then
    fmtReceivingFrame (lib.GetSenderName s) (lib.GetSenderWidth s) (lib.GetSenderHeight s)
      (lib.GetSenderFps s) (lib.GetSenderFrame s)
  else
    fmtReceiving (lib.GetSenderName s) (lib.GetSenderWidth s) (lib.GetSenderHeight s)

/-- The accessor calls made by the argument list of the first `sprintf_s` of the connected
branch of `showInfo`: five with a frame count, three without. -/
def statusQueries (lib : SPOUTLIBRARY σ) (s : σ) : List Event :=
  if lib.GetSenderFrame s > 0 then
    [.call .GetSenderName, .call .GetSenderWidth, .call .GetSenderHeight, .call .GetSenderFps,
      .call .GetSenderFrame]
  else
    [.call .GetSenderName, .call .GetSenderWidth, .call .GetSenderHeight]

/-- Events other than a release call and other than a call through the null handle. -/
def isQuiet : Event → Bool
  | .call .ReleaseReceiver => false
  | .call .Release => false
  | .nullCall _ => false
  | _ => true

/-- The dimensions signalled by the `update()` that starts in outcome `o`: the sender size the
library reports right after `IsUpdated()` answered true, and `dflt` when it answered false (or
when there is no such `update()`). -/
def signalledDims {σ : Type} (lib : SPOUTLIBRARY σ) (o : Outcome σ) (dflt : Int × Int) :
    Int × Int :=
  match o with
  | .returned a =>
    match a.receiver with
    | some s =>
      if (lib.IsUpdated s).1 then
        (lib.GetSenderWidth (lib.IsUpdated s).2, lib.GetSenderHeight (lib.IsUpdated s).2)
      else dflt
    | none => dflt
  | .stopped _ _ => dflt

/-- The producer dimensions reported at the most recent resize signal up to and including the
`update()` of frame `n`; the window size given to `setup` while there has been none. -/
def lastSignalledDims {σ : Type} (lib : SPOUTLIBRARY σ) (env : Env σ) : Nat → Int × Int
  | 0 => signalledDims lib (atFrame lib env 0) (env.ofGetWidth, env.ofGetHeight)
  | n + 1 => signalledDims lib (atFrame lib env (n + 1)) (lastSignalledDims lib env n)

/-! ## A concrete library, for evaluating the callbacks -/

/-- State of a small receiver library: whether it is connected to the sender, whether a size
change is pending, and what the accessors report. -/
structure DemoState where
  connected : Bool
  updated : Bool
  name : String
  width : Int
  height : Int
  frame : Int
  deriving DecidableEq

/-- A small receiver library: `ReceiveTexture` connects on first use and raises the update
flag, `IsUpdated` reads and clears the flag, `ReleaseReceiver` disconnects. -/
def demoLib : SPOUTLIBRARY DemoState where
  EnableSpoutLog := fun s => s
  IsUpdated := fun s => (s.updated, { s with updated := false })
  ReceiveTexture := fun s _ =>
    if s.connected then (true, s) else (true, { s with connected := true, updated := true })
  IsConnected := fun s => (s.connected, s)
  SelectSender := fun s => s
  ReleaseReceiver := fun s => { s with connected := false }
  Release := fun s => s
  GetSenderWidth := fun s => s.width
  GetSenderHeight := fun s => s.height
  GetSenderFrame := fun s => s.frame
  GetSenderFps := fun _ => ⟨"60"⟩
  GetSenderName := fun s => s.name

/-- A 640x360 sender is running; the library has not connected to it yet. -/
def demoSender : DemoState := ⟨false, false, "Spout DX11 Sender", 640, 360, 0⟩

/-- Acquisition succeeds; the window is 1024x768. -/
def demoEnv : Env DemoState := ⟨some demoSender, 1024, 768⟩

/-- Acquisition fails: `GetSpout()` returns null. -/
def failEnv : Env DemoState := ⟨none, 1024, 768⟩

/-- The application after a successful `setup`, holding a handle to a library in state `s`. -/
def demoApp (s : DemoState) : ofApp DemoState :=
  ⟨some s, Buffer.empty.allocate 1024 768 .GL_RGBA,
    Buffer.empty.allocate 1024 768 .OF_IMAGE_COLOR, []⟩

/-- Connected to the sender, size change pending. -/
def demoResized : DemoState := ⟨true, true, "Spout DX11 Sender", 640, 360, 0⟩

/-- Connected to the sender, nothing pending, no frame count. -/
def demoSteady : DemoState := ⟨true, false, "Spout DX11 Sender", 640, 360, 0⟩

/-- Connected to a sender that counts frames. -/
def demoCounting : DemoState := ⟨true, false, "Spout DX11 Sender", 640, 360, 7⟩

/-- Two frames with a right-hand click in between and a left-hand click at the end. -/
def demoCallbacks : List Callback :=
  [.update, .draw, .mousePressed 5 5 2, .update, .draw, .mousePressed 5 5 0]

/-- A sender name of 240 characters. -/
def longName : String := String.mk (List.replicate 240 'a')

/-- Connected to a sender with the long name, no frame count. -/
def demoLongName : DemoState := ⟨true, false, longName, 640, 360, 0⟩

/-- Connected to a sender with the long name that counts frames. -/
def demoLongCounting : DemoState := ⟨true, false, longName, 640, 360, 7⟩

/-! ## Auxiliary lemmas -/

section Helpers

variable {σ : Type}

/-- A text that fits with its terminator is stored. -/
theorem sprintf_s_fits {n : Nat} {t : String} (h : t.length + 1 ≤ n) :
    sprintf_s n t = some t := by
  simp [sprintf_s, h]

/-- A text that does not fit with its terminator makes `sprintf_s` fail. -/
theorem sprintf_s_overflow {n : Nat} {t : String} (h : n < t.length + 1) :
    sprintf_s n t = none := by
  simp [sprintf_s, Nat.not_le.mpr h]

/-- The disconnected branch of `showInfo`, in full. -/
theorem showInfo_disconnected (lib : SPOUTLIBRARY σ) (env : Env σ) (app : ofApp σ) (s : σ)
    (hr : app.receiver = some s) (hc : (lib.IsConnected s).1 = false) :
    ofApp.showInfo lib env app =
      .returned ⟨some (lib.IsConnected s).2, app.myTexture, app.myImage,
        app.trace ++ [.ofSetColor 255, .call .IsConnected,
          .ofDrawBitmapString "No sender detected" 20 20]⟩ := by
  have hfit : sprintf_s 256 "No sender detected" = some "No sender detected" := by decide
  simp [ofApp.showInfo, emit, hr, hc, hfit]

/-- The connected branch of `showInfo` when the first line fits `str`, in full. -/
theorem showInfo_connected_fits (lib : SPOUTLIBRARY σ) (env : Env σ) (app : ofApp σ) (s : σ)
    (hr : app.receiver = some s) (hc : (lib.IsConnected s).1 = true)
    (hfit : (statusLine lib (lib.IsConnected s).2).length ≤ 255) :
    ofApp.showInfo lib env app =
      .returned ⟨some (lib.IsConnected s).2, app.myTexture, app.myImage,
        app.trace ++ ([.ofSetColor 255, .call .IsConnected, .call .GetSenderFrame] ++
          statusQueries lib (lib.IsConnected s).2 ++
          [.ofDrawBitmapString (statusLine lib (lib.IsConnected s).2) 10 20,
            .ofDrawBitmapString "RH click select sender" 10 (env.ofGetHeight - 20)])⟩ := by
  have hrh : sprintf_s 256 "RH click select sender" = some "RH click select sender" := by decide
  by_cases hf : lib.GetSenderFrame (lib.IsConnected s).2 > 0
  · simp only [statusLine, hf, if_true] at hfit
    simp [ofApp.showInfo, emit, emits, hr, hc, hf, hrh, statusLine, statusQueries,
      sprintf_s_fits (Nat.succ_le_succ hfit)]
  · simp only [statusLine, hf, if_false] at hfit
    simp [ofApp.showInfo, emit, emits, hr, hc, hf, hrh, statusLine, statusQueries,
      sprintf_s_fits (Nat.succ_le_succ hfit)]

/-- The connected branch of `showInfo` when the first line does not fit `str`: the run stops
in the first `sprintf_s`, after the accessor calls of its argument list. -/
theorem showInfo_connected_overflow (lib : SPOUTLIBRARY σ) (env : Env σ) (app : ofApp σ) (s : σ)
    (hr : app.receiver = some s) (hc : (lib.IsConnected s).1 = true)
    (hover : 255 < (statusLine lib (lib.IsConnected s).2).length) :
    ofApp.showInfo lib env app =
      .stopped .invalidParameter ⟨some (lib.IsConnected s).2, app.myTexture, app.myImage,
        app.trace ++ ([.ofSetColor 255, .call .IsConnected, .call .GetSenderFrame] ++
          statusQueries lib (lib.IsConnected s).2)⟩ := by
  by_cases hf : lib.GetSenderFrame (lib.IsConnected s).2 > 0
  · simp only [statusLine, hf, if_true] at hover
    simp [ofApp.showInfo, emit, emits, hr, hc, hf, statusLine, statusQueries,
      sprintf_s_overflow (Nat.succ_lt_succ hover)]
  · simp only [statusLine, hf, if_false] at hover
    simp [ofApp.showInfo, emit, emits, hr, hc, hf, statusLine, statusQueries,
      sprintf_s_overflow (Nat.succ_lt_succ hover)]

/-- Null calls of a concatenated trace. -/
theorem nullCalls_append (t u : List Event) : nullCalls (t ++ u) = nullCalls t ++ nullCalls u := by
  induction t with
  | nil => rfl
  | cons e t ih => cases e <;> simp [nullCalls, ih]

/-- A quiet trace has no call through the null handle. -/
theorem quiet_nullCalls (t : List Event) (h : t.all isQuiet = true) : nullCalls t = [] := by
  induction t with
  | nil => rfl
  | cons e t ih =>
    simp only [List.all_cons, Bool.and_eq_true] at h
    cases e <;> simp_all [nullCalls, isQuiet]

/-- A quiet trace has no release call. -/
theorem quiet_count (t : List Event) (h : t.all isQuiet = true) :
    t.count (.call .ReleaseReceiver) = 0 ∧ t.count (.call .Release) = 0 := by
  simp only [List.all_eq_true] at h
  constructor <;>
  · rw [List.count_eq_zero]
    intro hm
    have := h _ hm
    simp [isQuiet] at this

/-- The accessor calls of the status line are quiet. -/
theorem statusQueries_quiet (lib : SPOUTLIBRARY σ) (s : σ) :
    (statusQueries lib s).all isQuiet = true := by
  unfold statusQueries
  split <;> decide

/-- What a returning `showInfo` leaves behind: the handle stays valid, the buffers are untouched
and only quiet events were added. -/
theorem showInfo_returned (lib : SPOUTLIBRARY σ) (env : Env σ) (app app' : ofApp σ) (s : σ)
    (hr : app.receiver = some s) (h : ofApp.showInfo lib env app = .returned app') :
    app'.receiver = some (lib.IsConnected s).2 ∧ app'.myTexture = app.myTexture ∧
      app'.myImage = app.myImage ∧
      ∃ evs, app'.trace = app.trace ++ evs ∧ evs.all isQuiet = true := by
  cases hc : (lib.IsConnected s).1 with
  | false =>
    rw [showInfo_disconnected lib env app s hr hc] at h
    cases h
    exact ⟨rfl, rfl, rfl, _, rfl, by decide⟩
  | true =>
    by_cases hfit : (statusLine lib (lib.IsConnected s).2).length ≤ 255
    · rw [showInfo_connected_fits lib env app s hr hc hfit] at h
      cases h
      refine ⟨rfl, rfl, rfl, _, rfl, ?_⟩
      have := statusQueries_quiet lib (lib.IsConnected s).2
      simp only [List.all_append, this, Bool.and_eq_true]
      exact ⟨⟨by decide, trivial⟩, by simp [isQuiet]⟩
    · rw [showInfo_connected_overflow lib env app s hr hc (Nat.lt_of_not_le hfit)] at h
      cases h

/-- What a returning `draw` leaves behind: the handle stays valid, the buffers are untouched and
only quiet events were added. -/
theorem draw_returned (lib : SPOUTLIBRARY σ) (env : Env σ) (app app' : ofApp σ) (s : σ)
    (hr : app.receiver = some s) (h : ofApp.draw lib env app = .returned app') :
    (∃ s', app'.receiver = some s') ∧ app'.myTexture = app.myTexture ∧
      app'.myImage = app.myImage ∧
      ∃ evs, app'.trace = app.trace ++ evs ∧ evs.all isQuiet = true := by
  simp only [ofApp.draw, hr] at h
  obtain ⟨h1, h2, h3, evs, h4, h5⟩ := showInfo_returned lib env _ app' _ rfl h
  refine ⟨⟨_, h1⟩, h2, h3,
    [.call .ReceiveTexture, .textureDraw 0 0 env.ofGetWidth env.ofGetHeight] ++ evs, ?_, ?_⟩
  · simp [h4, emit]
  · simp only [List.all_append, h5, Bool.and_true]
    simp [isQuiet]

/-- What a returning `update` leaves behind: the handle stays valid and only quiet events were
added. -/
theorem update_returned (lib : SPOUTLIBRARY σ) (app app' : ofApp σ) (s : σ)
    (hr : app.receiver = some s) (h : ofApp.update lib app = .returned app') :
    (∃ s', app'.receiver = some s') ∧
      ∃ evs, app'.trace = app.trace ++ evs ∧ evs.all isQuiet = true := by
  cases hu : (lib.IsUpdated s).1 with
  | false =>
    simp only [ofApp.update, hr, hu] at h
    cases h
    exact ⟨⟨_, rfl⟩, _, rfl, by decide⟩
  | true =>
    simp only [ofApp.update, hr, hu, if_true] at h
    cases h
    refine ⟨⟨_, rfl⟩, [.call .IsUpdated, .call .GetSenderWidth, .call .GetSenderHeight,
      .call .GetSenderWidth, .call .GetSenderHeight], ?_, by decide⟩
    simp [emit, emits]

/-- What a returning `mousePressed` leaves behind: the handle stays valid and only quiet events
were added. -/
theorem mousePressed_returned (lib : SPOUTLIBRARY σ) (x y button : Int) (app app' : ofApp σ)
    (s : σ) (hr : app.receiver = some s)
    (h : ofApp.mousePressed lib x y button app = .returned app') :
    (∃ s', app'.receiver = some s') ∧
      ∃ evs, app'.trace = app.trace ++ evs ∧ evs.all isQuiet = true := by
  by_cases hb : button = 2
  · simp only [ofApp.mousePressed, hb, if_true, hr] at h
    cases h
    exact ⟨⟨_, rfl⟩, [.call .SelectSender], rfl, by decide⟩
  · simp only [ofApp.mousePressed, hb, if_false] at h
    cases h
    exact ⟨⟨_, hr⟩, [], by simp, by decide⟩

/-- A returning sequence of callbacks keeps the handle valid and adds only quiet events. -/
theorem runCallbacks_returned (lib : SPOUTLIBRARY σ) (env : Env σ) (cbs : List Callback) :
    ∀ (app app' : ofApp σ) (s : σ), app.receiver = some s →
      runCallbacks lib env cbs app = .returned app' →
      (∃ s', app'.receiver = some s') ∧
        ∃ evs, app'.trace = app.trace ++ evs ∧ evs.all isQuiet = true := by
  induction cbs with
  | nil =>
    intro app app' s hr h
    simp only [runCallbacks] at h
    cases h
    exact ⟨⟨_, hr⟩, [], by simp, by decide⟩
  | cons cb cbs ih =>
    intro app app' s hr h
    simp only [runCallbacks] at h
    cases hd : dispatch lib env app cb with
    | stopped w a => rw [hd] at h; simp [Outcome.bind] at h
    | returned a =>
      rw [hd] at h
      simp only [Outcome.bind] at h
      have step : (∃ s', a.receiver = some s') ∧
          ∃ evs, a.trace = app.trace ++ evs ∧ evs.all isQuiet = true := by
        cases cb with
        | update => exact update_returned lib app a s hr hd
        | draw =>
          obtain ⟨h1, _, _, h4⟩ := draw_returned lib env app a s hr hd
          exact ⟨h1, h4⟩
        | mousePressed x y button => exact mousePressed_returned lib x y button app a s hr hd
      obtain ⟨⟨s1, hs1⟩, evs1, ht1, hq1⟩ := step
      obtain ⟨hs2, evs2, ht2, hq2⟩ := ih a app' s1 hs1 h
      refine ⟨hs2, evs1 ++ evs2, ?_, ?_⟩
      · rw [ht2, ht1, List.append_assoc]
      · simp [List.all_append, hq1, hq2]

/-- The successful path of `setup`, in full. -/
theorem setup_acquired (lib : SPOUTLIBRARY σ) (env : Env σ) (app : ofApp σ) (s : σ)
    (hacq : env.GetSpout = some s) :
    ofApp.setup lib env app =
      .returned ⟨some (lib.EnableSpoutLog s),
        app.myTexture.allocate env.ofGetWidth env.ofGetHeight .GL_RGBA,
        app.myImage.allocate env.ofGetWidth env.ofGetHeight .OF_IMAGE_COLOR,
        app.trace ++ [.ofBackground 0 0 0, .GetSpout, .call .EnableSpoutLog]⟩ := by
  simp [ofApp.setup, emit, Outcome.bind, hacq]

/-- With a valid handle `update` returns, and the texture then has the signalled dimensions, or
the ones it had when there was no signal. -/
theorem update_dims (lib : SPOUTLIBRARY σ) (app : ofApp σ) (s : σ) (hr : app.receiver = some s) :
    ∃ a, ofApp.update lib app = .returned a ∧
      (a.myTexture.width, a.myTexture.height) =
        signalledDims lib (.returned app) (app.myTexture.width, app.myTexture.height) := by
  cases hu : (lib.IsUpdated s).1 with
  | false =>
    simp only [ofApp.update, signalledDims, hr, hu]
    exact ⟨_, rfl, rfl⟩
  | true =>
    simp only [ofApp.update, signalledDims, hr, hu, if_true]
    exact ⟨_, rfl, rfl⟩

/-- A sequence returned only if both of its parts did. -/
theorem bind_returned {o : Outcome σ} {f : ofApp σ → Outcome σ} {b : ofApp σ}
    (h : o.bind f = .returned b) : ∃ a, o = .returned a ∧ f a = .returned b := by
  cases o with
  | returned a => exact ⟨a, rfl, h⟩
  | stopped w a => simp [Outcome.bind] at h

/-- A returning `setup` acquired a handle and allocated the texture with the window size. -/
theorem setup_returned (lib : SPOUTLIBRARY σ) (env : Env σ) (app e : ofApp σ)
    (h : ofApp.setup lib env app = .returned e) :
    (∃ s, e.receiver = some s) ∧
      e.myTexture = app.myTexture.allocate env.ofGetWidth env.ofGetHeight .GL_RGBA := by
  cases hacq : env.GetSpout with
  | none =>
    simp [ofApp.setup, ofApp.exit, emit, Outcome.bind, hacq] at h
  | some s =>
    rw [setup_acquired lib env app s hacq] at h
    cases h
    exact ⟨⟨_, rfl⟩, rfl⟩

/-- On entry to every frame the handle is valid. -/
theorem atFrame_receiver (lib : SPOUTLIBRARY σ) (env : Env σ) :
    ∀ (n : Nat) (e : ofApp σ), atFrame lib env n = .returned e → ∃ s, e.receiver = some s := by
  intro n
  induction n with
  | zero =>
    intro e h
    exact (setup_returned lib env _ e h).1
  | succ n ih =>
    intro e h
    simp only [atFrame] at h
    obtain ⟨e0, h0, hf⟩ := bind_returned h
    obtain ⟨s0, hs0⟩ := ih e0 h0
    obtain ⟨a, ha, hd⟩ := bind_returned hf
    obtain ⟨⟨s1, hs1⟩, _⟩ := update_returned lib e0 a s0 hs0 ha
    exact (draw_returned lib env a e s1 hs1 hd).1

/-- Strings drawn by a concatenated trace. -/
theorem drawn_append (t u : List Event) : drawn (t ++ u) = drawn t ++ drawn u := by
  induction t with
  | nil => rfl
  | cons e t ih => cases e <;> simp [drawn, ih]

/-- The accessor calls of the status line draw nothing. -/
theorem statusQueries_drawn (lib : SPOUTLIBRARY σ) (s : σ) : drawn (statusQueries lib s) = [] := by
  unfold statusQueries
  split <;> rfl

/-- Both formats of the status line start with "Receiving : [" followed by the sender name. -/
theorem statusLine_starts (lib : SPOUTLIBRARY σ) (s : σ) :
    ∃ rest, statusLine lib s = "Receiving : [" ++ lib.GetSenderName s ++ rest := by
  unfold statusLine
  split
  · exact ⟨"] (" ++ fmt_d (lib.GetSenderWidth s) ++ "x" ++ fmt_d (lib.GetSenderHeight s) ++
      " : fps " ++ (lib.GetSenderFps s).fmt_2_0f ++ " : frame " ++ fmt_d (lib.GetSenderFrame s) ++ ")",
      by simp [fmtReceivingFrame, String.append_assoc]⟩
  · exact ⟨"] (" ++ fmt_d (lib.GetSenderWidth s) ++ "x" ++ fmt_d (lib.GetSenderHeight s) ++ ")",
      by simp [fmtReceiving, String.append_assoc]⟩

/-- The status line is never the text of the disconnected branch. -/
theorem statusLine_ne (lib : SPOUTLIBRARY σ) (s : σ) : statusLine lib s ≠ "No sender detected" := by
  obtain ⟨rest, h⟩ := statusLine_starts lib s
  rw [h, String.append_assoc]
  intro hEq
  have := congrArg String.data hEq
  simp [String.data_append] at this

/-- A 32-bit signed value printed with `%d` has at most 11 characters. -/
theorem fmt_d_length (i : Int) (hlo : -2147483648 ≤ i) (hhi : i ≤ 2147483647) :
    (fmt_d i).length ≤ 11 := by
  cases i with
  | ofNat n =>
    have hn : n < 10 ^ 10 := by
      have : (n : Int) ≤ 2147483647 := hhi
      omega
    have := Nat.repr_length n 10 (by decide) hn
    simp only [fmt_d]
    omega
  | negSucc n =>
    have hn : n + 1 < 10 ^ 10 := by
      have : Int.negSucc n = -((n : Int) + 1) := rfl
      omega
    have := Nat.repr_length (n + 1) 10 (by decide) hn
    simp only [fmt_d, String.length_append]
    have h1 : "-".length = 1 := rfl
    omega

/-- Length of the status line without frame information: 18 fixed characters, the name and the
two numbers. -/
theorem fmtReceiving_length (name : String) (w h : Int) :
    (fmtReceiving name w h).length = name.length + (fmt_d w).length + (fmt_d h).length + 18 := by
  have h1 : "Receiving : [".length = 13 := by decide
  have h2 : "] (".length = 3 := by decide
  have h3 : "x".length = 1 := by decide
  have h4 : ")".length = 1 := by decide
  simp only [fmtReceiving, String.length_append, h1, h2, h3, h4]
  omega

/-- Strings drawn by the events of a completed connected branch. -/
theorem drawn_connected (lib : SPOUTLIBRARY σ) (s : σ) (line : String) (y : Int) :
    drawn ([.ofSetColor 255, .call .IsConnected, .call .GetSenderFrame] ++ statusQueries lib s ++
      [.ofDrawBitmapString line 10 20, .ofDrawBitmapString "RH click select sender" 10 y]) =
      [(line, 10, 20), ("RH click select sender", 10, y)] := by
  rw [drawn_append, drawn_append, statusQueries_drawn]
  rfl

/-- A connected branch that stops in `sprintf_s` has drawn nothing. -/
theorem drawn_overflow (lib : SPOUTLIBRARY σ) (s : σ) :
    drawn ([.ofSetColor 255, .call .IsConnected, .call .GetSenderFrame] ++ statusQueries lib s) =
      [] := by
  rw [drawn_append, statusQueries_drawn]
  rfl

end Helpers

/-! ## The claims -/

section Update

variable {σ : Type}

/-- C1: whenever `IsUpdated()` answers true, `update()` returns, and afterwards the width and
height of the texture and of the image are the width and height the library reports
(`GetSenderWidth()`, `GetSenderHeight()` on the library state `update()` leaves behind). -/
theorem update_matches_sender_size (lib : SPOUTLIBRARY σ) (app : ofApp σ) (s : σ)
    (hr : app.receiver = some s) (hu : (lib.IsUpdated s).1 = true) :
    ∃ app' s', ofApp.update lib app = .returned app' ∧ app'.receiver = some s' ∧
      app'.myTexture.width = lib.GetSenderWidth s' ∧
      app'.myTexture.height = lib.GetSenderHeight s' ∧
      app'.myImage.width = lib.GetSenderWidth s' ∧
      app'.myImage.height = lib.GetSenderHeight s' := by
  simp only [ofApp.update, hr, hu, if_true]
  exact ⟨_, _, rfl, rfl, rfl, rfl, rfl, rfl⟩

/-- Witness for C1: the demo library with a pending size change of a 640x360 sender. -/
theorem update_matches_sender_size_witness :
    (demoApp demoResized).receiver = some demoResized ∧
    (demoLib.IsUpdated demoResized).1 = true ∧
    ∃ app' s', ofApp.update demoLib (demoApp demoResized) = .returned app' ∧
      app'.receiver = some s' ∧
      app'.myTexture.width = demoLib.GetSenderWidth s' ∧
      app'.myTexture.height = demoLib.GetSenderHeight s' ∧
      app'.myImage.width = demoLib.GetSenderWidth s' ∧
      app'.myImage.height = demoLib.GetSenderHeight s' :=
  ⟨rfl, rfl, update_matches_sender_size demoLib (demoApp demoResized) demoResized rfl rfl⟩

/-- C8: whenever `IsUpdated()` answers false, `update()` returns with the texture and the image
unchanged, and the only thing it did is the one `IsUpdated()` call: the trace grows by exactly
that event, so neither `GetSenderWidth()` nor `GetSenderHeight()` is queried. -/
theorem update_without_signal_is_idle (lib : SPOUTLIBRARY σ) (app : ofApp σ) (s : σ)
    (hr : app.receiver = some s) (hu : (lib.IsUpdated s).1 = false) :
    ∃ app', ofApp.update lib app = .returned app' ∧
      app'.myTexture = app.myTexture ∧ app'.myImage = app.myImage ∧
      app'.trace = app.trace ++ [.call .IsUpdated] ∧
      app'.receiver = some (lib.IsUpdated s).2 := by
  simp only [ofApp.update, hr, hu]
  exact ⟨_, rfl, rfl, rfl, rfl, rfl⟩

/-- Witness for C8: the demo library with nothing pending. -/
theorem update_without_signal_is_idle_witness :
    (demoApp demoSteady).receiver = some demoSteady ∧
    (demoLib.IsUpdated demoSteady).1 = false ∧
    ∃ app', ofApp.update demoLib (demoApp demoSteady) = .returned app' ∧
      app'.myTexture = (demoApp demoSteady).myTexture ∧
      app'.myImage = (demoApp demoSteady).myImage ∧
      app'.trace = (demoApp demoSteady).trace ++ [.call .IsUpdated] ∧
      app'.receiver = some (demoLib.IsUpdated demoSteady).2 :=
  ⟨rfl, rfl, update_without_signal_is_idle demoLib (demoApp demoSteady) demoSteady rfl rfl⟩

end Update

section Exit

variable {σ : Type}

/-- C4: with a non-null handle, one call of `exit()` returns having done exactly two things,
both library calls on the handle: `ReleaseReceiver` first, then `Release`.  The trace grows by
exactly these two events in this order, and the buffers are untouched. -/
theorem exit_releases_receiver_then_library (lib : SPOUTLIBRARY σ) (app : ofApp σ) (s : σ)
    (hr : app.receiver = some s) :
    ∃ app', ofApp.exit lib app = .returned app' ∧
      app'.trace = app.trace ++ [.call .ReleaseReceiver, .call .Release] ∧
      app'.receiver = some (lib.Release (lib.ReleaseReceiver s)) ∧
      app'.myTexture = app.myTexture ∧ app'.myImage = app.myImage := by
  simp only [ofApp.exit, hr]
  exact ⟨_, rfl, by simp [emit], rfl, rfl, rfl⟩

/-- Witness for C4: the demo application connected to its sender. -/
theorem exit_releases_receiver_then_library_witness :
    (demoApp demoSteady).receiver = some demoSteady ∧
    ∃ app', ofApp.exit demoLib (demoApp demoSteady) = .returned app' ∧
      app'.trace = (demoApp demoSteady).trace ++ [.call .ReleaseReceiver, .call .Release] ∧
      app'.receiver = some (demoLib.Release (demoLib.ReleaseReceiver demoSteady)) ∧
      app'.myTexture = (demoApp demoSteady).myTexture ∧
      app'.myImage = (demoApp demoSteady).myImage :=
  ⟨rfl, exit_releases_receiver_then_library demoLib (demoApp demoSteady) demoSteady rfl⟩

end Exit

section Mouse

variable {σ : Type}

/-- C7: `mousePressed(x, y, button)` with `button = 2` invokes `SelectSender()` exactly once and
does nothing else (the trace grows by that single event; through a valid handle the call is
made and the callback returns); with `button ≠ 2` it returns with the application state
unchanged, hence without any library call; and `x`, `y` never influence the outcome. -/
theorem mousePressed_selects_on_right_button (lib : SPOUTLIBRARY σ) (app : ofApp σ)
    (x y button : Int) :
    (button = 2 →
      (∀ s, app.receiver = some s →
        ofApp.mousePressed lib x y button app =
          .returned ⟨some (lib.SelectSender s), app.myTexture, app.myImage,
            app.trace ++ [.call .SelectSender]⟩) ∧
      (∃ e, (ofApp.mousePressed lib x y button app).app.trace = app.trace ++ [e] ∧
        invocations .SelectSender [e] = 1)) ∧
    (button ≠ 2 → ofApp.mousePressed lib x y button app = .returned app) ∧
    (∀ x' y' : Int,
      ofApp.mousePressed lib x' y' button app = ofApp.mousePressed lib x y button app) := by
  refine ⟨?_, ?_, ?_⟩
  · intro hb
    refine ⟨?_, ?_⟩
    · intro s hr
      simp [ofApp.mousePressed, hb, hr, emit]
    · cases hr : app.receiver with
      | none =>
        exact ⟨.nullCall .SelectSender, by simp [ofApp.mousePressed, hb, hr, emit, Outcome.app],
          by decide⟩
      | some s =>
        exact ⟨.call .SelectSender, by simp [ofApp.mousePressed, hb, hr, emit, Outcome.app],
          by decide⟩
  · intro hb
    simp [ofApp.mousePressed, hb]
  · intro x' y'
    rfl

/-- Witness for C7: a right-hand click and a left-hand click on the demo application. -/
theorem mousePressed_selects_on_right_button_witness :
    ofApp.mousePressed demoLib 15 30 2 (demoApp demoSteady) =
        .returned ⟨some (demoLib.SelectSender demoSteady), (demoApp demoSteady).myTexture,
          (demoApp demoSteady).myImage, (demoApp demoSteady).trace ++ [.call .SelectSender]⟩ ∧
    ofApp.mousePressed demoLib 15 30 0 (demoApp demoSteady) = .returned (demoApp demoSteady) :=
  ⟨((mousePressed_selects_on_right_button demoLib (demoApp demoSteady) 15 30 2).1 rfl).1
      demoSteady rfl,
    (mousePressed_selects_on_right_button demoLib (demoApp demoSteady) 15 30 0).2.1 (by decide)⟩

end Mouse

section Setup

variable {σ : Type}

/-- C2 (the code at the failing input): when `GetSpout()` returns null, `setup()` shows the
message box and then calls the member function `exit()`, which invokes `ReleaseReceiver`
through the null handle; the run stops inside that call. -/
theorem setup_null_handle_invokes_release (lib : SPOUTLIBRARY σ) (w h : Int) (app : ofApp σ) :
    ofApp.setup lib ⟨none, w, h⟩ app =
      .stopped .nullHandle ⟨none, app.myTexture, app.myImage,
        app.trace ++ [.ofBackground 0 0 0, .GetSpout,
          .MessageBoxA "Spout library load failed" "Spout Receiver",
          .nullCall .ReleaseReceiver]⟩ := by
  simp [ofApp.setup, ofApp.exit, emit, Outcome.bind]

end Setup

section Lifecycle

variable {σ : Type}

/-- C3 (amended): in every run of the lifecycle in which `GetSpout()` returns a non-null handle
and `setup` and all delivered `update`, `draw` and `mousePressed` callbacks return, the
shutdown call of `exit` returns and the handle has been released exactly once: over the whole
run `ReleaseReceiver` is invoked once and `Release` once, they are the last two events of the
trace, and nothing is ever invoked through a null handle. -/
theorem lifecycle_releases_once (lib : SPOUTLIBRARY σ) (env : Env σ) (cbs : List Callback)
    (s : σ) (app : ofApp σ) (hacq : env.GetSpout = some s)
    (hrun : (ofApp.setup lib env (ofApp.initial σ)).bind (runCallbacks lib env cbs) =
      .returned app) :
    ∃ app', lifecycle lib env cbs = .returned app' ∧ ReleasedExactlyOnce app'.trace ∧
      ∃ t, app'.trace = t ++ [.call .ReleaseReceiver, .call .Release] := by
  have hrun' := hrun
  rw [setup_acquired lib env _ s hacq] at hrun'
  simp only [Outcome.bind] at hrun'
  obtain ⟨⟨s1, hs1⟩, evs, ht, hq⟩ := runCallbacks_returned lib env cbs _ app _ rfl hrun'
  obtain ⟨app', hex, htr, _⟩ : ∃ app', ofApp.exit lib app = .returned app' ∧
      app'.trace = app.trace ++ [.call .ReleaseReceiver, .call .Release] ∧ True := by
    simp only [ofApp.exit, hs1]
    exact ⟨_, rfl, by simp [emit], trivial⟩
  refine ⟨app', ?_, ?_, app.trace, htr⟩
  · unfold lifecycle
    rw [hrun]
    exact hex
  · have hq' : (([.ofBackground 0 0 0, .GetSpout, .call .EnableSpoutLog] : List Event) ++
        evs).all isQuiet = true := by
      simp only [List.all_append, hq, Bool.and_true]; decide
    have hall : app.trace.all isQuiet = true := by
      rw [ht]
      simpa [ofApp.initial] using hq'
    obtain ⟨c1, c2⟩ := quiet_count _ hall
    have c3 := quiet_nullCalls _ hall
    refine ⟨?_, ?_, ?_⟩
    · rw [htr, List.count_append, c1]; decide
    · rw [htr, List.count_append, c2]; decide
    · rw [htr, nullCalls_append, c3]; rfl

/-- Witness for C3 (amended): two frames and two clicks on the demo library. -/
theorem lifecycle_releases_once_witness :
    demoEnv.GetSpout = some demoSender ∧
    (ofApp.setup demoLib demoEnv (ofApp.initial DemoState)).bind
        (runCallbacks demoLib demoEnv demoCallbacks) =
      .returned ((ofApp.setup demoLib demoEnv (ofApp.initial DemoState)).bind
        (runCallbacks demoLib demoEnv demoCallbacks)).app ∧
    ∃ app', lifecycle demoLib demoEnv demoCallbacks = .returned app' ∧
      ReleasedExactlyOnce app'.trace ∧
      ∃ t, app'.trace = t ++ [.call .ReleaseReceiver, .call .Release] :=
  ⟨rfl, rfl, lifecycle_releases_once demoLib demoEnv demoCallbacks demoSender _ rfl rfl⟩

/-- Counterexample for C3 as stated: on the startup-failure path the handle is not released
exactly once without a null call; `ReleaseReceiver` is invoked through the null handle and
`Release` is never invoked through a valid one. -/
theorem lifecycle_startup_failure_counterexample :
    failEnv.GetSpout = none ∧
    ¬ ReleasedExactlyOnce (lifecycle demoLib failEnv demoCallbacks).app.trace ∧
    nullCalls (lifecycle demoLib failEnv demoCallbacks).app.trace = [.ReleaseReceiver] ∧
    (lifecycle demoLib failEnv demoCallbacks).app.trace.count (.call .Release) = 0 := by
  decide

end Lifecycle

section Frames

variable {σ : Type}

/-- C5 (amended): whenever frame `n` is entered after a successful `setup`, its `update()`
returns, and at the moment `draw()` issues `ReceiveTexture` the width and height of the texture
are the producer dimensions the library reported at the most recent resize signal (the latest
`update()` whose `IsUpdated()` answered true), and the window size given to `setup` as long as
there has been no resize signal. -/
theorem receive_dims_follow_last_signal (lib : SPOUTLIBRARY σ) (env : Env σ) (n : Nat)
    (e : ofApp σ) (h : atFrame lib env n = .returned e) :
    ∃ a, atReceive lib env n = .returned a ∧
      (a.myTexture.width, a.myTexture.height) = lastSignalledDims lib env n := by
  induction n generalizing e with
  | zero =>
    obtain ⟨⟨s, hs⟩, htex⟩ := setup_returned lib env _ e h
    obtain ⟨a, ha, hdims⟩ := update_dims lib e s hs
    refine ⟨a, ?_, ?_⟩
    · simp only [atReceive, h, Outcome.bind, ha]
    · rw [hdims]
      simp only [lastSignalledDims, h, htex, Buffer.allocate]
  | succ n ih =>
    have h' := h
    simp only [atFrame] at h'
    obtain ⟨e0, h0, hf⟩ := bind_returned h'
    obtain ⟨s0, hs0⟩ := atFrame_receiver lib env n e0 h0
    obtain ⟨a0, ha0, hd0⟩ := bind_returned hf
    obtain ⟨a0', hrec, hprev⟩ := ih e0 h0
    have hsame : a0' = a0 := by
      simp only [atReceive, h0, Outcome.bind, ha0] at hrec
      cases hrec
      rfl
    subst hsame
    obtain ⟨⟨s1, hs1⟩, _⟩ := update_returned lib e0 a0' s0 hs0 ha0
    obtain ⟨⟨s, hs⟩, htex, _⟩ := draw_returned lib env a0' e s1 hs1 hd0
    obtain ⟨a, ha, hdims⟩ := update_dims lib e s hs
    refine ⟨a, ?_, ?_⟩
    · simp only [atReceive, h, Outcome.bind, ha]
    · rw [hdims, htex, hprev]
      simp only [lastSignalledDims, h]

/-- Witness for C5 (amended): the second frame of the demo run; the first frame still has the
window size 1024x768, the second has the sender size 640x360. -/
theorem receive_dims_follow_last_signal_witness :
    atFrame demoLib demoEnv 1 = .returned (atFrame demoLib demoEnv 1).app ∧
    (∃ a, atReceive demoLib demoEnv 1 = .returned a ∧
      (a.myTexture.width, a.myTexture.height) = lastSignalledDims demoLib demoEnv 1) ∧
    lastSignalledDims demoLib demoEnv 1 = (640, 360) ∧
    lastSignalledDims demoLib demoEnv 0 = (1024, 768) :=
  ⟨rfl, receive_dims_follow_last_signal demoLib demoEnv 1 _ rfl, by decide, by decide⟩

/-- Counterexample for C5 as stated: at the very first `ReceiveTexture` call of the demo run the
texture is 1024x768 (the window), while the library reports a 640x360 sender and has not been
asked for the sender size at all. -/
theorem first_receive_counterexample :
    (atReceive demoLib demoEnv 0).isReturned = true ∧
    (atReceive demoLib demoEnv 0).app.myTexture.width = 1024 ∧
    (atReceive demoLib demoEnv 0).app.myTexture.height = 768 ∧
    (atReceive demoLib demoEnv 0).app.receiver.map demoLib.GetSenderWidth = some 640 ∧
    (atReceive demoLib demoEnv 0).app.receiver.map demoLib.GetSenderHeight = some 360 ∧
    libCalls (atReceive demoLib demoEnv 0).app.trace = [.EnableSpoutLog, .IsUpdated] := by
  decide

end Frames

section ShowInfo

variable {σ : Type}

/-- C6 (amended): the text `showInfo()` draws follows the `IsConnected()` poll of that call.
When it answers false, the call returns and the trace grows by the colour setting, the poll and
the single string "No sender detected" at (20, 20): no sender accessor is queried.  When it
answers true, "No sender detected" is not drawn; and provided the formatted status line has at
most 255 characters (it fits the 256-byte buffer), the call returns and the first line drawn, at
(10, 20), starts with "Receiving : [" followed by the sender name. -/
theorem showInfo_text_follows_poll (lib : SPOUTLIBRARY σ) (env : Env σ) (app : ofApp σ) (s : σ)
    (hr : app.receiver = some s) :
    ((lib.IsConnected s).1 = false →
      ofApp.showInfo lib env app =
        .returned ⟨some (lib.IsConnected s).2, app.myTexture, app.myImage,
          app.trace ++ [.ofSetColor 255, .call .IsConnected,
            .ofDrawBitmapString "No sender detected" 20 20]⟩) ∧
    ((lib.IsConnected s).1 = true →
      ∃ evs, (ofApp.showInfo lib env app).app.trace = app.trace ++ evs ∧
        (∀ p ∈ drawn evs, p.1 ≠ "No sender detected") ∧
        ((statusLine lib (lib.IsConnected s).2).length ≤ 255 →
          (ofApp.showInfo lib env app).isReturned = true ∧
          ∃ rest, (drawn evs).head? =
            some ("Receiving : [" ++ lib.GetSenderName (lib.IsConnected s).2 ++ rest, 10, 20))) := by
  refine ⟨fun hc => showInfo_disconnected lib env app s hr hc, fun hc => ?_⟩
  by_cases hfit : (statusLine lib (lib.IsConnected s).2).length ≤ 255
  · refine ⟨[.ofSetColor 255, .call .IsConnected, .call .GetSenderFrame] ++
        statusQueries lib (lib.IsConnected s).2 ++
        [.ofDrawBitmapString (statusLine lib (lib.IsConnected s).2) 10 20,
          .ofDrawBitmapString "RH click select sender" 10 (env.ofGetHeight - 20)],
      by rw [showInfo_connected_fits lib env app s hr hc hfit]; rfl, ?_, fun _ => ⟨?_, ?_⟩⟩
    · intro p hp
      rw [drawn_connected] at hp
      simp only [List.mem_cons, List.mem_singleton, List.not_mem_nil, or_false] at hp
      rcases hp with hp | hp
      · rw [hp]; exact statusLine_ne lib _
      · rw [hp]
        show "RH click select sender" ≠ "No sender detected"
        decide
    · rw [showInfo_connected_fits lib env app s hr hc hfit]; rfl
    · obtain ⟨rest, hrest⟩ := statusLine_starts lib (lib.IsConnected s).2
      refine ⟨rest, ?_⟩
      rw [drawn_connected, hrest]
      rfl
  · refine ⟨[.ofSetColor 255, .call .IsConnected, .call .GetSenderFrame] ++
        statusQueries lib (lib.IsConnected s).2,
      by rw [showInfo_connected_overflow lib env app s hr hc (Nat.lt_of_not_le hfit)]; rfl,
      ?_, fun h => absurd h hfit⟩
    intro p hp
    rw [drawn_overflow] at hp
    cases hp

/-- Witness for C6 (amended): the demo library before connecting, and connected to a sender
that counts frames. -/
theorem showInfo_text_follows_poll_witness :
    (demoApp demoSender).receiver = some demoSender ∧
    (demoLib.IsConnected demoSender).1 = false ∧
    ofApp.showInfo demoLib demoEnv (demoApp demoSender) =
      .returned ⟨some (demoLib.IsConnected demoSender).2, (demoApp demoSender).myTexture,
        (demoApp demoSender).myImage,
        (demoApp demoSender).trace ++ [.ofSetColor 255, .call .IsConnected,
          .ofDrawBitmapString "No sender detected" 20 20]⟩ ∧
    (demoApp demoCounting).receiver = some demoCounting ∧
    (demoLib.IsConnected demoCounting).1 = true ∧
    (statusLine demoLib (demoLib.IsConnected demoCounting).2).length ≤ 255 ∧
    ∃ evs, (ofApp.showInfo demoLib demoEnv (demoApp demoCounting)).app.trace =
        (demoApp demoCounting).trace ++ evs ∧
      (∀ p ∈ drawn evs, p.1 ≠ "No sender detected") ∧
      (ofApp.showInfo demoLib demoEnv (demoApp demoCounting)).isReturned = true ∧
      ∃ rest, (drawn evs).head? =
        some ("Receiving : [" ++ demoLib.GetSenderName (demoLib.IsConnected demoCounting).2 ++ rest,
          10, 20) := by
  refine ⟨rfl, rfl,
    (showInfo_text_follows_poll demoLib demoEnv (demoApp demoSender) demoSender rfl).1 rfl,
    rfl, rfl, by decide, ?_⟩
  obtain ⟨evs, h1, h2, h3⟩ :=
    (showInfo_text_follows_poll demoLib demoEnv (demoApp demoCounting) demoCounting rfl).2 rfl
  exact ⟨evs, h1, h2, h3 (by decide)⟩

set_option maxRecDepth 100000 in
/-- Counterexample for C6 as stated: the poll answers true for a sender with a 240-character
name that counts frames; the formatted line does not fit `str`, the run stops in `sprintf_s` and
no line at all is drawn, so no first line starts with "Receiving : [". -/
theorem showInfo_long_name_counting_counterexample :
    (demoApp demoLongCounting).receiver = some demoLongCounting ∧
    (demoLib.IsConnected demoLongCounting).1 = true ∧
    (ofApp.showInfo demoLib demoEnv (demoApp demoLongCounting)).isReturned = false ∧
    drawn (ofApp.showInfo demoLib demoEnv (demoApp demoLongCounting)).app.trace = [] := by
  decide

/-- C9 (amended): when `IsConnected()` answers true and `GetSenderFrame()` is not greater than
0, `GetSenderFps()` is not queried; and provided the formatted line has at most 255 characters,
`showInfo()` returns and the strings it draws are exactly
"Receiving : [" ++ name ++ "] (" ++ decimal(width) ++ "x" ++ decimal(height) ++ ")" at (10, 20)
and then "RH click select sender" at (10, window height - 20).  In both connected branches,
provided the first line has at most 255 characters, `showInfo()` returns and the second string
drawn is "RH click select sender" at (10, window height - 20). -/
theorem showInfo_connected_status_lines (lib : SPOUTLIBRARY σ) (env : Env σ) (app : ofApp σ)
    (s : σ) (hr : app.receiver = some s) (hc : (lib.IsConnected s).1 = true) :
    (¬ lib.GetSenderFrame (lib.IsConnected s).2 > 0 →
      ∃ evs, (ofApp.showInfo lib env app).app.trace = app.trace ++ evs ∧
        Event.call .GetSenderFps ∉ evs ∧
        ((fmtReceiving (lib.GetSenderName (lib.IsConnected s).2)
            (lib.GetSenderWidth (lib.IsConnected s).2)
            (lib.GetSenderHeight (lib.IsConnected s).2)).length ≤ 255 →
          (ofApp.showInfo lib env app).isReturned = true ∧
          drawn evs =
            [("Receiving : [" ++ lib.GetSenderName (lib.IsConnected s).2 ++ "] (" ++
                fmt_d (lib.GetSenderWidth (lib.IsConnected s).2) ++ "x" ++
                fmt_d (lib.GetSenderHeight (lib.IsConnected s).2) ++ ")", 10, 20),
              ("RH click select sender", 10, env.ofGetHeight - 20)])) ∧
    ((statusLine lib (lib.IsConnected s).2).length ≤ 255 →
      ∃ app' evs, ofApp.showInfo lib env app = .returned app' ∧
        app'.trace = app.trace ++ evs ∧
        drawn evs = [(statusLine lib (lib.IsConnected s).2, 10, 20),
          ("RH click select sender", 10, env.ofGetHeight - 20)]) := by
  refine ⟨fun hf => ?_, fun hfit => ?_⟩
  · have hq : statusQueries lib (lib.IsConnected s).2 =
        [.call .GetSenderName, .call .GetSenderWidth, .call .GetSenderHeight] := by
      simp [statusQueries, hf]
    have hst : statusLine lib (lib.IsConnected s).2 =
        fmtReceiving (lib.GetSenderName (lib.IsConnected s).2)
          (lib.GetSenderWidth (lib.IsConnected s).2)
          (lib.GetSenderHeight (lib.IsConnected s).2) := by
      simp [statusLine, hf]
    by_cases hfit : (statusLine lib (lib.IsConnected s).2).length ≤ 255
    · refine ⟨[.ofSetColor 255, .call .IsConnected, .call .GetSenderFrame] ++
          statusQueries lib (lib.IsConnected s).2 ++
          [.ofDrawBitmapString (statusLine lib (lib.IsConnected s).2) 10 20,
            .ofDrawBitmapString "RH click select sender" 10 (env.ofGetHeight - 20)],
        by rw [showInfo_connected_fits lib env app s hr hc hfit]; rfl, ?_, fun _ => ⟨?_, ?_⟩⟩
      · rw [hq]
        simp
      · rw [showInfo_connected_fits lib env app s hr hc hfit]
        rfl
      · rw [drawn_connected, hst]
        rfl
    · refine ⟨[.ofSetColor 255, .call .IsConnected, .call .GetSenderFrame] ++
          statusQueries lib (lib.IsConnected s).2,
        by rw [showInfo_connected_overflow lib env app s hr hc (Nat.lt_of_not_le hfit)]; rfl,
        ?_, fun h => absurd (hst ▸ h) hfit⟩
      rw [hq]
      simp
  · exact ⟨_, [.ofSetColor 255, .call .IsConnected, .call .GetSenderFrame] ++
        statusQueries lib (lib.IsConnected s).2 ++
        [.ofDrawBitmapString (statusLine lib (lib.IsConnected s).2) 10 20,
          .ofDrawBitmapString "RH click select sender" 10 (env.ofGetHeight - 20)],
      showInfo_connected_fits lib env app s hr hc hfit, rfl, drawn_connected lib _ _ _⟩

/-- Witness for C9 (amended): the demo library connected to a sender without and with a frame
count. -/
theorem showInfo_connected_status_lines_witness :
    (demoApp demoSteady).receiver = some demoSteady ∧
    (demoLib.IsConnected demoSteady).1 = true ∧
    ¬ demoLib.GetSenderFrame (demoLib.IsConnected demoSteady).2 > 0 ∧
    (fmtReceiving (demoLib.GetSenderName (demoLib.IsConnected demoSteady).2)
      (demoLib.GetSenderWidth (demoLib.IsConnected demoSteady).2)
      (demoLib.GetSenderHeight (demoLib.IsConnected demoSteady).2)).length ≤ 255 ∧
    (∃ evs, (ofApp.showInfo demoLib demoEnv (demoApp demoSteady)).app.trace =
        (demoApp demoSteady).trace ++ evs ∧
      Event.call .GetSenderFps ∉ evs ∧
      (ofApp.showInfo demoLib demoEnv (demoApp demoSteady)).isReturned = true ∧
      drawn evs = [("Receiving : [Spout DX11 Sender] (640x360)", 10, 20),
        ("RH click select sender", 10, 748)]) ∧
    (statusLine demoLib (demoLib.IsConnected demoCounting).2).length ≤ 255 ∧
    ∃ app' evs, ofApp.showInfo demoLib demoEnv (demoApp demoCounting) = .returned app' ∧
      app'.trace = (demoApp demoCounting).trace ++ evs ∧
      drawn evs = [("Receiving : [Spout DX11 Sender] (640x360 : fps 60 : frame 7)", 10, 20),
        ("RH click select sender", 10, 748)] := by
  refine ⟨rfl, rfl, by decide, by decide, ?_, by decide,
    (showInfo_connected_status_lines demoLib demoEnv (demoApp demoCounting) demoCounting rfl
      rfl).2 (by decide)⟩
  obtain ⟨evs, h1, h2, h3⟩ :=
    (showInfo_connected_status_lines demoLib demoEnv (demoApp demoSteady) demoSteady rfl rfl).1
      (by decide)
  exact ⟨evs, h1, h2, (h3 (by decide)).1, (h3 (by decide)).2⟩

set_option maxRecDepth 100000 in
/-- Counterexample for C9 as stated: connected, no frame count, a 240-character sender name and
a 640x360 sender; the formatted line has 264 characters, the run stops in `sprintf_s`, and
neither the status line nor "RH click select sender" is drawn. -/
theorem showInfo_long_name_counterexample :
    (demoApp demoLongName).receiver = some demoLongName ∧
    (demoLib.IsConnected demoLongName).1 = true ∧
    ¬ demoLib.GetSenderFrame (demoLib.IsConnected demoLongName).2 > 0 ∧
    (ofApp.showInfo demoLib demoEnv (demoApp demoLongName)).isReturned = false ∧
    drawn (ofApp.showInfo demoLib demoEnv (demoApp demoLongName)).app.trace = [] ∧
    (fmtReceiving longName 640 360).length = 264 := by
  decide

/-- C10: in the connected branch of `showInfo()` without frame information, for every sender
name of at most 215 characters and every 32-bit signed width and height, the line
"Receiving : [name] (WxH)" has at most 255 characters and `showInfo()` stores and draws it: the
call returns having drawn exactly that line at (10, 20) and then "RH click select sender", so
the overflow stop of the bounded formatting call is not reached.  For every name of 216 or more
characters there are 32-bit width and height values for which the line has more than 255
characters and `showInfo()`, for any library reporting that name and those values, stops in the
bounded formatting call without drawing anything. -/
theorem receiving_line_fits_buffer :
    (∀ {τ : Type} (lib : SPOUTLIBRARY τ) (env : Env τ) (app : ofApp τ) (s : τ),
      app.receiver = some s → (lib.IsConnected s).1 = true →
      ¬ lib.GetSenderFrame (lib.IsConnected s).2 > 0 →
      (lib.GetSenderName (lib.IsConnected s).2).length ≤ 215 →
      -2147483648 ≤ lib.GetSenderWidth (lib.IsConnected s).2 →
      lib.GetSenderWidth (lib.IsConnected s).2 ≤ 2147483647 →
      -2147483648 ≤ lib.GetSenderHeight (lib.IsConnected s).2 →
      lib.GetSenderHeight (lib.IsConnected s).2 ≤ 2147483647 →
      (fmtReceiving (lib.GetSenderName (lib.IsConnected s).2)
        (lib.GetSenderWidth (lib.IsConnected s).2)
        (lib.GetSenderHeight (lib.IsConnected s).2)).length ≤ 255 ∧
      ∃ app' evs, ofApp.showInfo lib env app = .returned app' ∧
        app'.trace = app.trace ++ evs ∧
        drawn evs =
          [(fmtReceiving (lib.GetSenderName (lib.IsConnected s).2)
              (lib.GetSenderWidth (lib.IsConnected s).2)
              (lib.GetSenderHeight (lib.IsConnected s).2), 10, 20),
            ("RH click select sender", 10, env.ofGetHeight - 20)]) ∧
    (∀ name : String, 216 ≤ name.length →
      ∃ w h : Int, -2147483648 ≤ w ∧ w ≤ 2147483647 ∧ -2147483648 ≤ h ∧ h ≤ 2147483647 ∧
        255 < (fmtReceiving name w h).length ∧
        ∀ {τ : Type} (lib : SPOUTLIBRARY τ) (env : Env τ) (app : ofApp τ) (s : τ),
          app.receiver = some s → (lib.IsConnected s).1 = true →
          ¬ lib.GetSenderFrame (lib.IsConnected s).2 > 0 →
          lib.GetSenderName (lib.IsConnected s).2 = name →
          lib.GetSenderWidth (lib.IsConnected s).2 = w →
          lib.GetSenderHeight (lib.IsConnected s).2 = h →
          ∃ app' evs, ofApp.showInfo lib env app = .stopped .invalidParameter app' ∧
            app'.trace = app.trace ++ evs ∧ drawn evs = []) := by
  refine ⟨?_, fun name hn => ?_⟩
  · intro τ lib env app s hr hc hf hn hw1 hw2 hh1 hh2
    have hst : statusLine lib (lib.IsConnected s).2 =
        fmtReceiving (lib.GetSenderName (lib.IsConnected s).2)
          (lib.GetSenderWidth (lib.IsConnected s).2)
          (lib.GetSenderHeight (lib.IsConnected s).2) := by
      simp [statusLine, hf]
    have lw := fmt_d_length _ hw1 hw2
    have lh := fmt_d_length _ hh1 hh2
    have hlen : (fmtReceiving (lib.GetSenderName (lib.IsConnected s).2)
        (lib.GetSenderWidth (lib.IsConnected s).2)
        (lib.GetSenderHeight (lib.IsConnected s).2)).length ≤ 255 := by
      rw [fmtReceiving_length]
      omega
    have hfit : (statusLine lib (lib.IsConnected s).2).length ≤ 255 := by
      rw [hst]
      exact hlen
    refine ⟨hlen, _, [.ofSetColor 255, .call .IsConnected, .call .GetSenderFrame] ++
        statusQueries lib (lib.IsConnected s).2 ++
        [.ofDrawBitmapString (statusLine lib (lib.IsConnected s).2) 10 20,
          .ofDrawBitmapString "RH click select sender" 10 (env.ofGetHeight - 20)],
      showInfo_connected_fits lib env app s hr hc hfit, rfl, ?_⟩
    rw [drawn_connected, hst]
  · have hmin : (fmt_d (-2147483648)).length = 11 := by decide
    have hover : 255 < (fmtReceiving name (-2147483648) (-2147483648)).length := by
      rw [fmtReceiving_length, hmin]
      omega
    refine ⟨-2147483648, -2147483648, by decide, by decide, by decide, by decide, hover, ?_⟩
    intro τ lib env app s hr hc hf hname hw hh
    have hst : statusLine lib (lib.IsConnected s).2 =
        fmtReceiving name (-2147483648) (-2147483648) := by
      simp [statusLine, hf, hname, hw, hh]
    exact ⟨_, [.ofSetColor 255, .call .IsConnected, .call .GetSenderFrame] ++
        statusQueries lib (lib.IsConnected s).2,
      showInfo_connected_overflow lib env app s hr hc (by rw [hst]; exact hover), rfl,
      drawn_overflow lib _⟩

set_option maxRecDepth 100000 in
/-- Witness for C10: the demo library connected to "Spout DX11 Sender" at 640x360, and
connected to a sender with the 240-character name. -/
theorem receiving_line_fits_buffer_witness :
    ((demoApp demoSteady).receiver = some demoSteady ∧
      (demoLib.IsConnected demoSteady).1 = true ∧
      ¬ demoLib.GetSenderFrame (demoLib.IsConnected demoSteady).2 > 0 ∧
      (demoLib.GetSenderName (demoLib.IsConnected demoSteady).2).length ≤ 215 ∧
      (fmtReceiving "Spout DX11 Sender" 640 360).length ≤ 255 ∧
      ∃ app' evs, ofApp.showInfo demoLib demoEnv (demoApp demoSteady) = .returned app' ∧
        app'.trace = (demoApp demoSteady).trace ++ evs ∧
        drawn evs = [("Receiving : [Spout DX11 Sender] (640x360)", 10, 20),
          ("RH click select sender", 10, 748)]) ∧
    (216 ≤ longName.length ∧
      ∃ w h : Int, -2147483648 ≤ w ∧ w ≤ 2147483647 ∧ -2147483648 ≤ h ∧ h ≤ 2147483647 ∧
        255 < (fmtReceiving longName w h).length ∧
        ∃ app' evs,
          ofApp.showInfo demoLib demoEnv (demoApp ⟨true, false, longName, w, h, 0⟩) =
            .stopped .invalidParameter app' ∧
          app'.trace = (demoApp ⟨true, false, longName, w, h, 0⟩).trace ++ evs ∧
          drawn evs = []) := by
  refine ⟨⟨rfl, rfl, by decide, by decide,
    receiving_line_fits_buffer.1 demoLib demoEnv (demoApp demoSteady) demoSteady rfl rfl
      (by decide) (by decide) (by decide) (by decide) (by decide) (by decide)⟩,
    by decide, ?_⟩
  obtain ⟨w, h, hw1, hw2, hh1, hh2, hlen, hall⟩ :=
    receiving_line_fits_buffer.2 longName (by decide)
  exact ⟨w, h, hw1, hw2, hh1, hh2, hlen,
    hall demoLib demoEnv (demoApp ⟨true, false, longName, w, h, 0⟩)
      ⟨true, false, longName, w, h, 0⟩ rfl rfl (by show ¬ (0 : Int) > 0; decide) rfl rfl rfl⟩

end ShowInfo

end SpoutReceiver
